import Mathlib

/-!
Verification development for the Eulumdat photometric data engine and its
HarmonyOS NAPI binding (sources: `eulumdat_ffi.h`, `eulumdat_napi.cpp`).

The engine itself (Rust) is declared in `eulumdat_ffi.h` but its
implementation is not part of the sources; engine-level operations are
modelled from the specification (see the doc comments starting
`Modelled from the spec:`). The binding layer is embedded directly from
`eulumdat_napi.cpp`. Real numbers are modelled as rationals, and the
line-oriented text formats are modelled at token level (a serialized file
is a list of text/number tokens).
-/

namespace Eulumdat

/-- Symmetry class of the luminaire, FFI ordinals 0–4
(`0=None, 1=VerticalAxis, 2=PlaneC0C180, 3=PlaneC90C270, 4=BothPlanes`). -/
inductive Symmetry where
  | noSymmetry
  | verticalAxis
  | planeC0C180
  | planeC90C270
  | bothPlanes
deriving DecidableEq, Repr

/-- Photometric type indicator, FFI ordinals 0–2
(`0=PointSourceSymmetric, 1=Linear, 2=PointSourceOther`). -/
inductive TypeIndicator where
  | pointSourceSymmetric
  | linear
  | pointSourceOther
deriving DecidableEq, Repr

/-- FFI ordinal of a symmetry class (stable wire contract, 0–4). -/
def Symmetry.ordinal : Symmetry → Int
  | .noSymmetry => 0
  | .verticalAxis => 1
  | .planeC0C180 => 2
  | .planeC90C270 => 3
  | .bothPlanes => 4

/-- FFI ordinal of a type indicator (stable wire contract, 0–2). -/
def TypeIndicator.ordinal : TypeIndicator → Int
  | .pointSourceSymmetric => 0
  | .linear => 1
  | .pointSourceOther => 2

/-- One lamp set of the luminaire (mirrors `LampSetInfo` in `eulumdat_ffi.h`). -/
structure LampSet where
  num_lamps : Int
  lamp_type : String
  total_luminous_flux : ℚ
  color_appearance : String
  color_rendering_group : String
  wattage_with_ballast : ℚ
deriving DecidableEq, Repr

/-- The normalized in-memory luminaire model (spec §3), the entity behind the
opaque `EulumdatHandle` of `eulumdat_ffi.h`. Intensities are indexed
`(C-plane index, G-angle index)` in candela per kilolumen. -/
structure LuminaireModel where
  luminaire_name : String
  identification : String
  luminaire_number : String
  file_name : String
  date_user : String
  measurement_report_number : String
  symmetry : Symmetry
  type_indicator : TypeIndicator
  length : ℚ
  width : ℚ
  height : ℚ
  luminous_area_length : ℚ
  luminous_area_width : ℚ
  c_plane_distance : ℚ
  g_plane_distance : ℚ
  num_c_planes : Nat
  num_g_planes : Nat
  c_angles : List ℚ
  g_angles : List ℚ
  intensities : List (List ℚ)
  lamp_sets : List LampSet
  max_intensity : ℚ
  total_luminous_flux : ℚ
  downward_flux_fraction : ℚ
  light_output_ratio : ℚ
deriving DecidableEq, Repr

/-- Modelled from the spec: the engine computes the cached maximum intensity
deterministically from the parsed table (`eulumdat_ffi.h` declares only the
cached field; the computing code is not in the sources). -/
def computeMaxIntensity (table : List (List ℚ)) : ℚ :=
  (table.map (fun row => row.foldl max 0)).foldl max 0

/-- Modelled from the spec: total luminous flux is computed deterministically
from the parsed table by a photometric quadrature (spec §4.1); the exact
trigonometric weights of the engine are not in the sources, so a
representative deterministic rational quadrature (mean intensity) is used. -/
def computeTotalFlux (g_angles : List ℚ) (table : List (List ℚ)) : ℚ :=
  if table.length = 0 ∨ g_angles.length = 0 then 0
  else (table.map List.sum).sum / ((table.length : ℚ) * (g_angles.length : ℚ))

/-- Modelled from the spec: flux restricted to the downward hemisphere
(G angles at most 90 degrees), same quadrature as `computeTotalFlux`. -/
def computeDownwardFlux (g_angles : List ℚ) (table : List (List ℚ)) : ℚ :=
  if table.length = 0 ∨ g_angles.length = 0 then 0
  else (table.map (fun row =>
      ((row.zip g_angles).filter (fun p => p.2 ≤ 90)).foldl (fun a p => a + p.1) 0)).sum /
    ((table.length : ℚ) * (g_angles.length : ℚ))

/-- Modelled from the spec: downward flux fraction, 0 when total flux is 0. -/
def computeDFF (g_angles : List ℚ) (table : List (List ℚ)) : ℚ :=
  let tf := computeTotalFlux g_angles table
  if tf = 0 then 0 else computeDownwardFlux g_angles table / tf

/-- Modelled from the spec: light output ratio — emitted flux over lamp-rated
flux, 0 when the lamp-rated flux is 0. -/
def computeLOR (lampFlux tf : ℚ) : ℚ :=
  if lampFlux = 0 then 0 else tf / lampFlux

/-- A token of a serialized photometric file: the line-oriented text formats
are modelled at token level (each numeric or text field is one token). -/
inductive Tok where
  | num (q : ℚ)
  | txt (s : String)
deriving DecidableEq, Repr

/-- Read one text token. -/
def takeTxt : List Tok → Except String (String × List Tok)
  | Tok.txt s :: rest => .ok (s, rest)
  | _ => .error "expected text field"

/-- Read one numeric token. -/
def takeNum : List Tok → Except String (ℚ × List Tok)
  | Tok.num q :: rest => .ok (q, rest)
  | _ => .error "expected numeric field"

/-- Read a numeric token that must be a nonnegative integer (a count). -/
def takeNat (toks : List Tok) : Except String (Nat × List Tok) :=
  match takeNum toks with
  | .error e => .error e
  | .ok (q, rest) =>
    if q.den = 1 ∧ 0 ≤ q.num then .ok (q.num.toNat, rest)
    else .error "expected a nonnegative integer"

/-- Read a numeric token that must be an integer. -/
def takeInt (toks : List Tok) : Except String (Int × List Tok) :=
  match takeNum toks with
  | .error e => .error e
  | .ok (q, rest) =>
    if q.den = 1 then .ok (q.num, rest) else .error "expected an integer"

/-- Read exactly `n` numeric tokens. -/
def takeNums : Nat → List Tok → Except String (List ℚ × List Tok)
  | 0, toks => .ok ([], toks)
  | n + 1, toks =>
    match takeNum toks with
    | .error e => .error e
    | .ok (q, rest) =>
      match takeNums n rest with
      | .error e => .error e
      | .ok (qs, rest2) => .ok (q :: qs, rest2)

/-- Read `n` rows of `m` numeric tokens each. -/
def takeRows : Nat → Nat → List Tok → Except String (List (List ℚ) × List Tok)
  | 0, _, toks => .ok ([], toks)
  | n + 1, m, toks =>
    match takeNums m toks with
    | .error e => .error e
    | .ok (row, rest) =>
      match takeRows n m rest with
      | .error e => .error e
      | .ok (rows, rest2) => .ok (row :: rows, rest2)

/-- Read one lamp set (count, type, flux, color appearance, color rendering
group, wattage). -/
def takeLampSet (toks : List Tok) : Except String (LampSet × List Tok) :=
  match takeInt toks with
  | .error e => .error e
  | .ok (n, r1) =>
    match takeTxt r1 with
    | .error e => .error e
    | .ok (ty, r2) =>
      match takeNum r2 with
      | .error e => .error e
      | .ok (fl, r3) =>
        match takeTxt r3 with
        | .error e => .error e
        | .ok (ca, r4) =>
          match takeTxt r4 with
          | .error e => .error e
          | .ok (crg, r5) =>
            match takeNum r5 with
            | .error e => .error e
            | .ok (w, r6) => .ok (⟨n, ty, fl, ca, crg, w⟩, r6)

/-- Read exactly `n` lamp sets. -/
def takeLampSets : Nat → List Tok → Except String (List LampSet × List Tok)
  | 0, toks => .ok ([], toks)
  | n + 1, toks =>
    match takeLampSet toks with
    | .error e => .error e
    | .ok (ls, rest) =>
      match takeLampSets n rest with
      | .error e => .error e
      | .ok (lss, rest2) => .ok (ls :: lss, rest2)

/-- Decode the symmetry ordinal of a file; an out-of-range value is a parse
error (spec §4.1: range errors fail parsing). -/
def decodeSymmetry (q : ℚ) : Except String Symmetry :=
  if q = 0 then .ok .noSymmetry
  else if q = 1 then .ok .verticalAxis
  else if q = 2 then .ok .planeC0C180
  else if q = 3 then .ok .planeC90C270
  else if q = 4 then .ok .bothPlanes
  else .error "symmetry indicator out of range"

/-- Decode the type indicator ordinal of a file. -/
def decodeTypeIndicator (q : ℚ) : Except String TypeIndicator :=
  if q = 0 then .ok .pointSourceSymmetric
  else if q = 1 then .ok .linear
  else if q = 2 then .ok .pointSourceOther
  else .error "type indicator out of range"

/-- Header of an LDT file before the counted sections. -/
structure LdtHeader where
  luminaire_name : String
  identification : String
  luminaire_number : String
  file_name : String
  date_user : String
  measurement_report_number : String
  symmetry : Symmetry
  type_indicator : TypeIndicator
  length : ℚ
  width : ℚ
  height : ℚ
  luminous_area_length : ℚ
  luminous_area_width : ℚ
  c_plane_distance : ℚ
  g_plane_distance : ℚ
deriving DecidableEq, Repr

/-- Parse the positional LDT header fields. -/
def parseLdtHeader (toks : List Tok) : Except String (LdtHeader × List Tok) := do
  let (name, r) ← takeTxt toks
  let (ident, r) ← takeTxt r
  let (lumNum, r) ← takeTxt r
  let (fname, r) ← takeTxt r
  let (dateUser, r) ← takeTxt r
  let (report, r) ← takeTxt r
  let (symQ, r) ← takeNum r
  let sym ← decodeSymmetry symQ
  let (tiQ, r) ← takeNum r
  let ti ← decodeTypeIndicator tiQ
  let (len, r) ← takeNum r
  let (wid, r) ← takeNum r
  let (hei, r) ← takeNum r
  let (lal, r) ← takeNum r
  let (law, r) ← takeNum r
  let (dc, r) ← takeNum r
  let (dg, r) ← takeNum r
  .ok (⟨name, ident, lumNum, fname, dateUser, report, sym, ti,
        len, wid, hei, lal, law, dc, dg⟩, r)

/-- Build the final model from parsed pieces, rejecting negative intensities
and trailing tokens, and computing the cached derived scalars (spec §4.1:
computed values are authoritative, derived deterministically from the table). -/
def buildModel (hd : LdtHeader) (nc ng : Nat) (cAngles gAngles : List ℚ)
    (table : List (List ℚ)) (lamps : List LampSet) (rest : List Tok) :
    Except String LuminaireModel :=
  if ¬ rest.isEmpty then .error "unexpected trailing data"
  else if ¬ table.all (fun row => row.all (fun v => 0 ≤ v)) then
    .error "negative intensity value"
  else
    let lampFlux := (lamps.map LampSet.total_luminous_flux).sum
    let tf := computeTotalFlux gAngles table
    .ok
      { luminaire_name := hd.luminaire_name
        identification := hd.identification
        luminaire_number := hd.luminaire_number
        file_name := hd.file_name
        date_user := hd.date_user
        measurement_report_number := hd.measurement_report_number
        symmetry := hd.symmetry
        type_indicator := hd.type_indicator
        length := hd.length
        width := hd.width
        height := hd.height
        luminous_area_length := hd.luminous_area_length
        luminous_area_width := hd.luminous_area_width
        c_plane_distance := hd.c_plane_distance
        g_plane_distance := hd.g_plane_distance
        num_c_planes := nc
        num_g_planes := ng
        c_angles := cAngles
        g_angles := gAngles
        intensities := table
        lamp_sets := lamps
        max_intensity := computeMaxIntensity table
        total_luminous_flux := tf
        downward_flux_fraction := computeDFF gAngles table
        light_output_ratio := computeLOR lampFlux tf }

/-- Modelled from the spec: `eulumdat_parse_ldt` — the LDT parser declared in
`eulumdat_ffi.h` whose implementation is not in the sources. The file is a
fixed sequence of positional fields: header, declared plane counts, C-angle
and G-angle sequences of exactly the declared lengths, the intensity table of
exactly `num_c_planes × num_g_planes` values, then the lamp sets. Any arity,
type, or range violation yields a `ParseError` diagnostic and no model. -/
def eulumdat_parse_ldt (toks : List Tok) : Except String LuminaireModel :=
  match parseLdtHeader toks with
  | .error e => .error e
  | .ok (hd, r1) =>
    match takeNat r1 with
    | .error e => .error e
    | .ok (nc, r2) =>
      match takeNat r2 with
      | .error e => .error e
      | .ok (ng, r3) =>
        match takeNums nc r3 with
        | .error e => .error e
        | .ok (cAngles, r4) =>
          match takeNums ng r4 with
          | .error e => .error e
          | .ok (gAngles, r5) =>
            match takeRows nc ng r5 with
            | .error e => .error e
            | .ok (table, r6) =>
              match takeNat r6 with
              | .error e => .error e
              | .ok (nls, r7) =>
                match takeLampSets nls r7 with
                | .error e => .error e
                | .ok (lamps, r8) =>
                  buildModel hd nc ng cAngles gAngles table lamps r8

/-- Serialize one lamp set. -/
def exportLampSet (ls : LampSet) : List Tok :=
  [Tok.num (ls.num_lamps : ℚ), Tok.txt ls.lamp_type, Tok.num ls.total_luminous_flux,
   Tok.txt ls.color_appearance, Tok.txt ls.color_rendering_group,
   Tok.num ls.wattage_with_ballast]

/-- Modelled from the spec: `eulumdat_export_ldt` — the LDT exporter declared
in `eulumdat_ffi.h` (implementation not in the sources). A pure function of
the model, writing the same positional field sequence the parser reads; only
the stored angular range is serialized (no symmetry expansion). -/
def eulumdat_export_ldt (m : LuminaireModel) : List Tok :=
  [Tok.txt m.luminaire_name, Tok.txt m.identification, Tok.txt m.luminaire_number,
   Tok.txt m.file_name, Tok.txt m.date_user, Tok.txt m.measurement_report_number,
   Tok.num (m.symmetry.ordinal : ℚ), Tok.num (m.type_indicator.ordinal : ℚ),
   Tok.num m.length, Tok.num m.width, Tok.num m.height,
   Tok.num m.luminous_area_length, Tok.num m.luminous_area_width,
   Tok.num m.c_plane_distance, Tok.num m.g_plane_distance,
   Tok.num (m.num_c_planes : ℚ), Tok.num (m.num_g_planes : ℚ)]
  ++ m.c_angles.map Tok.num
  ++ m.g_angles.map Tok.num
  ++ (m.intensities.map (fun row => row.map Tok.num)).flatten
  ++ [Tok.num (m.lamp_sets.length : ℚ)]
  ++ (m.lamp_sets.map exportLampSet).flatten

/-- Parse the IES header fields (keyword-tagged lines, modelled as positional
tokens in the IES keyword order: photometric type before symmetry, and the
IESNA width/length/height geometry order). -/
def parseIesHeader (toks : List Tok) : Except String (LdtHeader × List Tok) := do
  let (name, r) ← takeTxt toks
  let (ident, r) ← takeTxt r
  let (lumNum, r) ← takeTxt r
  let (fname, r) ← takeTxt r
  let (dateUser, r) ← takeTxt r
  let (report, r) ← takeTxt r
  let (tiQ, r) ← takeNum r
  let ti ← decodeTypeIndicator tiQ
  let (symQ, r) ← takeNum r
  let sym ← decodeSymmetry symQ
  let (wid, r) ← takeNum r
  let (len, r) ← takeNum r
  let (hei, r) ← takeNum r
  let (lal, r) ← takeNum r
  let (law, r) ← takeNum r
  let (dc, r) ← takeNum r
  let (dg, r) ← takeNum r
  .ok (⟨name, ident, lumNum, fname, dateUser, report, sym, ti,
        len, wid, hei, lal, law, dc, dg⟩, r)

/-- Modelled from the spec: `eulumdat_parse_ies` — the IES parser declared in
`eulumdat_ffi.h` (implementation not in the sources). IES places the lamp
data in the header and declares the vertical (G) angle count before the
horizontal (C) plane count; the candela block is grouped per C-plane. -/
def eulumdat_parse_ies (toks : List Tok) : Except String LuminaireModel :=
  match parseIesHeader toks with
  | .error e => .error e
  | .ok (hd, r1) =>
    match takeNat r1 with
    | .error e => .error e
    | .ok (nls, r2) =>
      match takeLampSets nls r2 with
      | .error e => .error e
      | .ok (lamps, r3) =>
        match takeNat r3 with
        | .error e => .error e
        | .ok (ng, r4) =>
          match takeNat r4 with
          | .error e => .error e
          | .ok (nc, r5) =>
            match takeNums ng r5 with
            | .error e => .error e
            | .ok (gAngles, r6) =>
              match takeNums nc r6 with
              | .error e => .error e
              | .ok (cAngles, r7) =>
                match takeRows nc ng r7 with
                | .error e => .error e
                | .ok (table, r8) =>
                  buildModel hd nc ng cAngles gAngles table lamps r8

/-- Modelled from the spec: `eulumdat_export_ies` — the IES exporter declared
in `eulumdat_ffi.h` (implementation not in the sources); writes the field
sequence `eulumdat_parse_ies` reads, serializing only the stored angular
range. -/
def eulumdat_export_ies (m : LuminaireModel) : List Tok :=
  [Tok.txt m.luminaire_name, Tok.txt m.identification, Tok.txt m.luminaire_number,
   Tok.txt m.file_name, Tok.txt m.date_user, Tok.txt m.measurement_report_number,
   Tok.num (m.type_indicator.ordinal : ℚ), Tok.num (m.symmetry.ordinal : ℚ),
   Tok.num m.width, Tok.num m.length, Tok.num m.height,
   Tok.num m.luminous_area_length, Tok.num m.luminous_area_width,
   Tok.num m.c_plane_distance, Tok.num m.g_plane_distance,
   Tok.num (m.lamp_sets.length : ℚ)]
  ++ (m.lamp_sets.map exportLampSet).flatten
  ++ [Tok.num (m.num_g_planes : ℚ), Tok.num (m.num_c_planes : ℚ)]
  ++ m.g_angles.map Tok.num
  ++ m.c_angles.map Tok.num
  ++ (m.intensities.map (fun row => row.map Tok.num)).flatten

/-- Modelled from the spec: symmetry folding (spec §4.3) — map a query C
angle into the stored angular range according to the symmetry class.
`VerticalAxis` ignores C entirely; `PlaneC0C180` folds `c > 180` to `360−c`;
`PlaneC90C270` mirrors about the C90–C270 plane; `BothPlanes` folds all
quadrants into the stored 0–90° quadrant. -/
def foldC : Symmetry → ℚ → ℚ
  | .noSymmetry, c => c
  | .verticalAxis, _ => 0
  | .planeC0C180, c => if 180 < c then 360 - c else c
  | .planeC90C270, c =>
      if c < 90 then 180 - c else if 270 < c then 540 - c else c
  | .bothPlanes, c =>
      let c1 := if 180 < c then 360 - c else c
      if 90 < c1 then 180 - c1 else c1

/-- Number of stored angles that are at most `x` (for a sorted angle list
this locates the bracketing interval). -/
def lowerCount (angles : List ℚ) (x : ℚ) : Nat :=
  (angles.filter (fun a => a ≤ x)).length

/-- Bracketing pair of stored-angle indices for a query `x`: queries outside
the stored range clamp to the nearest boundary plane (spec §4.3). -/
def axisBracket (angles : List ℚ) (x : ℚ) : Nat × Nat :=
  let n := angles.length
  let k := lowerCount angles x
  if k = 0 then (0, 0)
  else if n ≤ k then (n - 1, n - 1)
  else (k - 1, k)

/-- Linear interpolation between `(x0, v0)` and `(x1, v1)` at `x`;
degenerates to `v0` when the bracket is a single point. -/
def interp1 (x0 x1 v0 v1 x : ℚ) : ℚ :=
  if x1 = x0 then v0 else v0 + (v1 - v0) * (x - x0) / (x1 - x0)

/-- Interpolate one intensity row along the G axis. -/
def sampleAxisG (g_angles row : List ℚ) (g : ℚ) : ℚ :=
  let p := axisBracket g_angles g
  interp1 (g_angles.getD p.1 0) (g_angles.getD p.2 0)
    (row.getD p.1 0) (row.getD p.2 0) g

/-- Modelled from the spec: `eulumdat_sample_intensity` — bilinear
interpolation over the 2×2 bracketing neighborhood after symmetry folding
(spec §4.3); declared in `eulumdat_ffi.h`, implementation not in the
sources. Degenerate axes (fewer than 2 stored angles) fall back to the
nearest stored value. -/
def eulumdat_sample_intensity (m : LuminaireModel) (c_angle g_angle : ℚ) : ℚ :=
  let cf := foldC m.symmetry c_angle
  let p := axisBracket m.c_angles cf
  let v0 := sampleAxisG m.g_angles (m.intensities.getD p.1 []) g_angle
  let v1 := sampleAxisG m.g_angles (m.intensities.getD p.2 []) g_angle
  interp1 (m.c_angles.getD p.1 0) (m.c_angles.getD p.2 0) v0 v1 cf

/-- Modelled from the spec: `eulumdat_sample_intensity_normalized` — the
sampled intensity divided by the model's cached maximum intensity, 0 when
that maximum is 0 (spec §4.3). -/
def eulumdat_sample_intensity_normalized (m : LuminaireModel)
    (c_angle g_angle : ℚ) : ℚ :=
  if m.max_intensity = 0 then 0
  else eulumdat_sample_intensity m c_angle g_angle / m.max_intensity

/-- Severity of a validation warning, FFI ordinals `0=Info, 1=Warning,
2=Error`. -/
inductive Severity where
  | info
  | warning
  | error
deriving DecidableEq, Repr

/-- Numeric rank of a severity (its FFI ordinal). -/
def Severity.rank : Severity → Nat
  | .info => 0
  | .warning => 1
  | .error => 2

/-- A validation warning (mirrors `ValidationWarningC` in `eulumdat_ffi.h`). -/
structure ValidationWarning where
  code : String
  message : String
  severity : Severity
deriving DecidableEq, Repr

/-- Modelled from the spec: validator check — monotonic C-angle sequence. -/
def checkMonotonicC (m : LuminaireModel) : List ValidationWarning :=
  if m.c_angles.Pairwise (· < ·) then []
  else [⟨"E_C_ANGLES", "C angles are not strictly increasing", .error⟩]

/-- Modelled from the spec: validator check — monotonic G-angle sequence. -/
def checkMonotonicG (m : LuminaireModel) : List ValidationWarning :=
  if m.g_angles.Pairwise (· < ·) then []
  else [⟨"E_G_ANGLES", "G angles are not strictly increasing", .error⟩]

/-- Modelled from the spec: validator check — non-negative intensities. -/
def checkNonneg (m : LuminaireModel) : List ValidationWarning :=
  if m.intensities.all (fun row => row.all (fun v => 0 ≤ v)) then []
  else [⟨"E_NEG_INTENSITY", "negative intensity value", .error⟩]

/-- Modelled from the spec: validator check — declared vs actual plane
counts and table dimensions. -/
def checkCounts (m : LuminaireModel) : List ValidationWarning :=
  if m.num_c_planes = m.c_angles.length ∧ m.num_g_planes = m.g_angles.length ∧
      m.intensities.length = m.num_c_planes ∧
      m.intensities.all (fun row => row.length = m.num_g_planes) then []
  else [⟨"E_COUNTS", "declared plane counts disagree with the data", .error⟩]

/-- Modelled from the spec: validator check — photometric-type/symmetry
compatibility (a Linear type with BothPlanes symmetry is implausible). -/
def checkTypeSym (m : LuminaireModel) : List ValidationWarning :=
  if m.type_indicator = .linear ∧ m.symmetry = .bothPlanes then
    [⟨"W_TYPE_SYM", "linear luminaire with both-planes symmetry", .warning⟩]
  else []

/-- Modelled from the spec: validator check — computed flux deviating
materially from the lamp-declared flux (the spec leaves the exact tolerance
unspecified; a factor-of-two band is used as the representative threshold). -/
def checkFlux (m : LuminaireModel) : List ValidationWarning :=
  let declared := (m.lamp_sets.map LampSet.total_luminous_flux).sum
  if 0 < declared ∧
      (m.total_luminous_flux < declared / 2 ∨ declared * 2 < m.total_luminous_flux) then
    [⟨"W_FLUX", "computed flux deviates materially from declared flux", .warning⟩]
  else []

/-- Modelled from the spec: validator check — presence of required
identification fields. -/
def checkIdFields (m : LuminaireModel) : List ValidationWarning :=
  if m.luminaire_name = "" then
    [⟨"I_NO_NAME", "luminaire name is missing", .info⟩]
  else []

/-- All validator checks, concatenated in check-definition order
(spec §4.4). -/
def rawChecks (m : LuminaireModel) : List ValidationWarning :=
  checkMonotonicC m ++ checkMonotonicG m ++ checkNonneg m ++ checkCounts m ++
    checkTypeSym m ++ checkFlux m ++ checkIdFields m

/-- Modelled from the spec: `eulumdat_validate` — runs all checks and orders
the output by severity: Errors first, then Warnings, then Info, each group
in check-definition order (spec §4.4); declared in `eulumdat_ffi.h`,
implementation not in the sources. Never fails. -/
def eulumdat_validate (m : LuminaireModel) : List ValidationWarning :=
  let raw := rawChecks m
  raw.filter (fun w => w.severity = .error) ++
    raw.filter (fun w => w.severity = .warning) ++
    raw.filter (fun w => w.severity = .info)

/-- Display text of a symmetry class. -/
def symmetryDisplay : Symmetry → String
  | .noSymmetry => "No symmetry"
  | .verticalAxis => "Vertical axis"
  | .planeC0C180 => "C0-C180 plane"
  | .planeC90C270 => "C90-C270 plane"
  | .bothPlanes => "Both planes"

/-- Display text of a type indicator. -/
def typeIndicatorDisplay : TypeIndicator → String
  | .pointSourceSymmetric => "Point source symmetric"
  | .linear => "Linear"
  | .pointSourceOther => "Point source other"

/-- Modelled from the spec: `eulumdat_symmetry_name` — pure ordinal-to-display
lookup; an out-of-range ordinal returns the designated unknown string, never
an error (spec §4.6); declared in `eulumdat_ffi.h`, implementation not in
the sources. -/
def eulumdat_symmetry_name (symmetry : Int) : String :=
  if symmetry = 0 then symmetryDisplay .noSymmetry
  else if symmetry = 1 then symmetryDisplay .verticalAxis
  else if symmetry = 2 then symmetryDisplay .planeC0C180
  else if symmetry = 3 then symmetryDisplay .planeC90C270
  else if symmetry = 4 then symmetryDisplay .bothPlanes
  else "Unknown"

/-- Modelled from the spec: `eulumdat_type_indicator_name` — pure
ordinal-to-display lookup with a designated unknown string (spec §4.6). -/
def eulumdat_type_indicator_name (type_indicator : Int) : String :=
  if type_indicator = 0 then typeIndicatorDisplay .pointSourceSymmetric
  else if type_indicator = 1 then typeIndicatorDisplay .linear
  else if type_indicator = 2 then typeIndicatorDisplay .pointSourceOther
  else "Unknown"

/-- Luminaire information snapshot (mirrors `LuminaireInfo` in
`eulumdat_ffi.h`). -/
structure LuminaireInfo where
  luminaire_name : String
  identification : String
  luminaire_number : String
  file_name : String
  date_user : String
  measurement_report_number : String
  symmetry : Int
  type_indicator : Int
  length : ℚ
  width : ℚ
  height : ℚ
  luminous_area_length : ℚ
  luminous_area_width : ℚ
  num_c_planes : Nat
  num_g_planes : Nat
  c_plane_distance : ℚ
  g_plane_distance : ℚ
  max_intensity : ℚ
  total_luminous_flux : ℚ
  downward_flux_fraction : ℚ
  light_output_ratio : ℚ
deriving DecidableEq, Repr

/-- Modelled from the spec: `eulumdat_get_info` — snapshot of the model's
fields and cached derived scalars (spec §6); declared in `eulumdat_ffi.h`,
implementation not in the sources. -/
def eulumdat_get_info (m : LuminaireModel) : LuminaireInfo :=
  { luminaire_name := m.luminaire_name
    identification := m.identification
    luminaire_number := m.luminaire_number
    file_name := m.file_name
    date_user := m.date_user
    measurement_report_number := m.measurement_report_number
    symmetry := m.symmetry.ordinal
    type_indicator := m.type_indicator.ordinal
    length := m.length
    width := m.width
    height := m.height
    luminous_area_length := m.luminous_area_length
    luminous_area_width := m.luminous_area_width
    num_c_planes := m.num_c_planes
    num_g_planes := m.num_g_planes
    c_plane_distance := m.c_plane_distance
    g_plane_distance := m.g_plane_distance
    max_intensity := m.max_intensity
    total_luminous_flux := m.total_luminous_flux
    downward_flux_fraction := m.downward_flux_fraction
    light_output_ratio := m.light_output_ratio }

/-- Self-contained SVG root element sized to the requested dimensions. -/
def svgRoot (width height : ℚ) (theme : Int) (body : String) : String :=
  "<svg width=\"" ++ toString width ++ "\" height=\"" ++ toString height ++
    "\" data-theme=\"" ++ toString theme ++ "\">" ++ body ++ "</svg>"

/-- Modelled from the spec: `eulumdat_polar_svg` — renderer declared in
`eulumdat_ffi.h`, implementation not in the sources; only the root-element
contract (self-contained markup sized to the request) is modelled. -/
def eulumdat_polar_svg (m : LuminaireModel) (width height : ℚ) (theme : Int) :
    String :=
  svgRoot width height theme ("polar:" ++ m.luminaire_name)

/-- Modelled from the spec: `eulumdat_cartesian_svg` — renderer declared in
`eulumdat_ffi.h`, implementation not in the sources. -/
def eulumdat_cartesian_svg (m : LuminaireModel) (width height : ℚ)
    (max_curves : Nat) (theme : Int) : String :=
  svgRoot width height theme
    ("cartesian:" ++ toString max_curves ++ ":" ++ m.luminaire_name)

/-- Modelled from the spec: `eulumdat_butterfly_svg` — renderer declared in
`eulumdat_ffi.h`, implementation not in the sources. -/
def eulumdat_butterfly_svg (m : LuminaireModel) (width height tilt_degrees : ℚ)
    (theme : Int) : String :=
  svgRoot width height theme
    ("butterfly:" ++ toString tilt_degrees ++ ":" ++ m.luminaire_name)

/-- Modelled from the spec: `eulumdat_heatmap_svg` — renderer declared in
`eulumdat_ffi.h`, implementation not in the sources. -/
def eulumdat_heatmap_svg (m : LuminaireModel) (width height : ℚ)
    (theme : Int) : String :=
  svgRoot width height theme ("heatmap:" ++ m.luminaire_name)

/-- Global binding state: the process-wide `g_handle` of `eulumdat_napi.cpp`
(null pointer modelled as `Option.none`). -/
structure NapiState where
  g_handle : Option LuminaireModel
deriving DecidableEq, Repr

/-- Outcome of a NAPI call: a returned value, or a thrown JS error carrying
the diagnostic message (`napi_throw_error` followed by returning nullptr). -/
inductive NapiOutcome (α : Type) where
  | ok (a : α)
  | thrown (msg : String)
deriving DecidableEq, Repr

/-- Binding `ParseLdt` (eulumdat_napi.cpp): frees any previous handle, parses,
throws the parser's diagnostic on failure, stores the handle and returns
`true` on success. -/
def ParseLdt (_s : NapiState) (content : List Tok) :
    NapiState × NapiOutcome Bool :=
  match eulumdat_parse_ldt content with
  | .error e => (⟨Option.none⟩, .thrown e)
  | .ok m => (⟨some m⟩, .ok true)

/-- Binding `ParseIes` (eulumdat_napi.cpp): same protocol as `ParseLdt`. -/
def ParseIes (_s : NapiState) (content : List Tok) :
    NapiState × NapiOutcome Bool :=
  match eulumdat_parse_ies content with
  | .error e => (⟨Option.none⟩, .thrown e)
  | .ok m => (⟨some m⟩, .ok true)

/-- Binding `IsLoaded` (eulumdat_napi.cpp): whether `g_handle` is non-null. -/
def IsLoaded (s : NapiState) : Bool :=
  s.g_handle.isSome

/-- Binding `GetInfo` (eulumdat_napi.cpp): throws "No file loaded" when no
model is loaded. -/
def GetInfo (s : NapiState) : NapiOutcome LuminaireInfo :=
  match s.g_handle with
  | Option.none => .thrown "No file loaded"
  | some m => .ok (eulumdat_get_info m)

/-- Binding `PolarSvg` (eulumdat_napi.cpp). -/
def PolarSvg (s : NapiState) (width height : ℚ) (theme : Int) :
    NapiOutcome String :=
  match s.g_handle with
  | Option.none => .thrown "No file loaded"
  | some m => .ok (eulumdat_polar_svg m width height theme)

/-- Binding `CartesianSvg` (eulumdat_napi.cpp). -/
def CartesianSvg (s : NapiState) (width height : ℚ) (maxCurves : Nat)
    (theme : Int) : NapiOutcome String :=
  match s.g_handle with
  | Option.none => .thrown "No file loaded"
  | some m => .ok (eulumdat_cartesian_svg m width height maxCurves theme)

/-- Binding `ButterflySvg` (eulumdat_napi.cpp). -/
def ButterflySvg (s : NapiState) (width height tiltDegrees : ℚ)
    (theme : Int) : NapiOutcome String :=
  match s.g_handle with
  | Option.none => .thrown "No file loaded"
  | some m => .ok (eulumdat_butterfly_svg m width height tiltDegrees theme)

/-- Binding `HeatmapSvg` (eulumdat_napi.cpp). -/
def HeatmapSvg (s : NapiState) (width height : ℚ) (theme : Int) :
    NapiOutcome String :=
  match s.g_handle with
  | Option.none => .thrown "No file loaded"
  | some m => .ok (eulumdat_heatmap_svg m width height theme)

/-- Binding `ExportLdt` (eulumdat_napi.cpp). -/
def ExportLdt (s : NapiState) : NapiOutcome (List Tok) :=
  match s.g_handle with
  | Option.none => .thrown "No file loaded"
  | some m => .ok (eulumdat_export_ldt m)

/-- Binding `ExportIes` (eulumdat_napi.cpp). -/
def ExportIes (s : NapiState) : NapiOutcome (List Tok) :=
  match s.g_handle with
  | Option.none => .thrown "No file loaded"
  | some m => .ok (eulumdat_export_ies m)

/-- Binding `Validate` (eulumdat_napi.cpp). -/
def Validate (s : NapiState) : NapiOutcome (List ValidationWarning) :=
  match s.g_handle with
  | Option.none => .thrown "No file loaded"
  | some m => .ok (eulumdat_validate m)

/-- Binding `SampleIntensity` (eulumdat_napi.cpp). -/
def SampleIntensity (s : NapiState) (cAngle gAngle : ℚ) : NapiOutcome ℚ :=
  match s.g_handle with
  | Option.none => .thrown "No file loaded"
  | some m => .ok (eulumdat_sample_intensity m cAngle gAngle)

/-- Binding `SymmetryName` (eulumdat_napi.cpp): no handle needed. -/
def SymmetryName (symmetry : Int) : NapiOutcome String :=
  .ok (eulumdat_symmetry_name symmetry)

/-- Binding `TypeIndicatorName` (eulumdat_napi.cpp): no handle needed. -/
def TypeIndicatorName (typeIndicator : Int) : NapiOutcome String :=
  .ok (eulumdat_type_indicator_name typeIndicator)

/-- A concrete lamp set used for concrete evaluations. -/
def demoLamp : LampSet :=
  ⟨1, "LED module", 1000, "840", "1B", 45⟩

/-- A concrete intensity table used for concrete evaluations. -/
def demoTable : List (List ℚ) :=
  [[100, 80, 20], [90, 70, 10], [80, 60, 5]]

/-- A concrete well-formed luminaire model used for concrete evaluations. -/
def demoLdt : LuminaireModel :=
  { luminaire_name := "Demo luminaire"
    identification := "ID-1"
    luminaire_number := "L-1"
    file_name := "demo.ldt"
    date_user := "2024 user"
    measurement_report_number := "M-1"
    symmetry := .noSymmetry
    type_indicator := .pointSourceOther
    length := 600
    width := 600
    height := 100
    luminous_area_length := 500
    luminous_area_width := 500
    c_plane_distance := 90
    g_plane_distance := 45
    num_c_planes := 3
    num_g_planes := 3
    c_angles := [0, 90, 180]
    g_angles := [0, 45, 90]
    intensities := demoTable
    lamp_sets := [demoLamp]
    max_intensity := computeMaxIntensity demoTable
    total_luminous_flux := computeTotalFlux [0, 45, 90] demoTable
    downward_flux_fraction := computeDFF [0, 45, 90] demoTable
    light_output_ratio :=
      computeLOR (([demoLamp].map LampSet.total_luminous_flux).sum)
        (computeTotalFlux [0, 45, 90] demoTable) }

/-- The demo model with both-planes symmetry, for the folding property. -/
def demoBoth : LuminaireModel :=
  { demoLdt with symmetry := .bothPlanes }

/-- An LDT token stream declaring `num_c_planes = 5` but supplying only 4
C-angle values (spec §8 failure scenario). -/
def badCountLdt : List Tok :=
  [Tok.txt "L", Tok.txt "I", Tok.txt "N", Tok.txt "F", Tok.txt "D", Tok.txt "R",
   Tok.num 0, Tok.num 0, Tok.num 100, Tok.num 100, Tok.num 50, Tok.num 80,
   Tok.num 80, Tok.num 90, Tok.num 45, Tok.num 5, Tok.num 2,
   Tok.num 0, Tok.num 90, Tok.num 180, Tok.num 270]

/-- Structural well-formedness established by every successful parse
(spec §3 invariants: declared counts match data, intensities are
non-negative, cached derived scalars are the deterministically computed
ones). -/
def wellFormed (m : LuminaireModel) : Prop :=
  m.num_c_planes = m.c_angles.length ∧
  m.num_g_planes = m.g_angles.length ∧
  m.intensities.length = m.num_c_planes ∧
  (∀ row ∈ m.intensities, row.length = m.num_g_planes) ∧
  (∀ row ∈ m.intensities, ∀ v ∈ row, 0 ≤ v) ∧
  m.max_intensity = computeMaxIntensity m.intensities ∧
  m.total_luminous_flux = computeTotalFlux m.g_angles m.intensities ∧
  m.downward_flux_fraction = computeDFF m.g_angles m.intensities ∧
  m.light_output_ratio =
    computeLOR ((m.lamp_sets.map LampSet.total_luminous_flux).sum)
      m.total_luminous_flux

theorem takeNums_ok_len :
    ∀ {n : Nat} {toks : List Tok} {xs : List ℚ} {rest : List Tok},
      takeNums n toks = .ok (xs, rest) → xs.length = n := by
  intro n
  induction n with
  | zero =>
    intro toks xs rest h
    simp only [takeNums, Except.ok.injEq, Prod.mk.injEq] at h
    rw [← h.1]
    rfl
  | succ k ih =>
    intro toks xs rest h
    rw [takeNums] at h
    rcases h1 : takeNum toks with e | ⟨q, r⟩
    · simp [h1] at h
    simp only [h1] at h
    rcases h2 : takeNums k r with e | ⟨qs, r2⟩
    · simp [h2] at h
    simp only [h2, Except.ok.injEq, Prod.mk.injEq] at h
    rw [← h.1]
    simp [ih h2]

theorem takeRows_ok_shape :
    ∀ {n k : Nat} {toks : List Tok} {rows : List (List ℚ)} {rest : List Tok},
      takeRows n k toks = .ok (rows, rest) →
        rows.length = n ∧ ∀ row ∈ rows, row.length = k := by
  intro n
  induction n with
  | zero =>
    intro k toks rows rest h
    simp only [takeRows, Except.ok.injEq, Prod.mk.injEq] at h
    rw [← h.1]
    simp
  | succ j ih =>
    intro k toks rows rest h
    rw [takeRows] at h
    rcases h1 : takeNums k toks with e | ⟨row, r⟩
    · simp [h1] at h
    simp only [h1] at h
    rcases h2 : takeRows j k r with e | ⟨rows2, r2⟩
    · simp [h2] at h
    simp only [h2, Except.ok.injEq, Prod.mk.injEq] at h
    obtain ⟨hrows, _⟩ := h
    subst hrows
    obtain ⟨hl, hall⟩ := ih h2
    refine ⟨by simp [hl], ?_⟩
    intro row2 hmem
    rcases List.mem_cons.mp hmem with hcase | hcase
    · rw [hcase]
      exact takeNums_ok_len h1
    · exact hall row2 hcase

theorem takeTxt_cons (s : String) (rest : List Tok) :
    takeTxt (Tok.txt s :: rest) = .ok (s, rest) := rfl

theorem takeNum_cons (q : ℚ) (rest : List Tok) :
    takeNum (Tok.num q :: rest) = .ok (q, rest) := rfl

theorem takeNat_natCast (n : Nat) (rest : List Tok) :
    takeNat (Tok.num (n : ℚ) :: rest) = .ok (n, rest) := by
  simp [takeNat, takeNum]

theorem takeInt_intCast (i : Int) (rest : List Tok) :
    takeInt (Tok.num (i : ℚ) :: rest) = .ok (i, rest) := by
  simp [takeInt, takeNum]

theorem takeNums_append (xs : List ℚ) (rest : List Tok) :
    takeNums xs.length (xs.map Tok.num ++ rest) = .ok (xs, rest) := by
  induction xs with
  | nil => rfl
  | cons x t ih => simp [takeNums, takeNum_cons, ih]

theorem takeRows_eval (rows : List (List ℚ)) (k n : Nat) (rest : List Tok)
    (hn : rows.length = n) (h : ∀ row ∈ rows, row.length = k) :
    takeRows n k ((rows.map (fun row => row.map Tok.num)).flatten ++ rest) =
      .ok (rows, rest) := by
  subst hn
  induction rows with
  | nil => rfl
  | cons row t ih =>
    have hrow : row.length = k := h row (by simp)
    subst hrow
    have ht : ∀ r ∈ t, r.length = row.length := fun r hr => h r (by simp [hr])
    simp [takeRows, takeNums_append, ih ht, List.append_assoc]

theorem takeLampSet_export (ls : LampSet) (rest : List Tok) :
    takeLampSet (exportLampSet ls ++ rest) = .ok (ls, rest) := by
  simp [exportLampSet, takeLampSet, takeInt_intCast, takeTxt_cons, takeNum_cons]

theorem takeLampSets_append (lss : List LampSet) (rest : List Tok) :
    takeLampSets lss.length ((lss.map exportLampSet).flatten ++ rest) =
      .ok (lss, rest) := by
  induction lss with
  | nil => rfl
  | cons ls t ih =>
    simp [takeLampSets, takeLampSet_export, ih, List.append_assoc]

theorem decodeSymmetry_ordinal (s : Symmetry) :
    decodeSymmetry ((s.ordinal : ℚ)) = .ok s := by
  cases s <;> norm_num [decodeSymmetry, Symmetry.ordinal]

theorem decodeTypeIndicator_ordinal (t : TypeIndicator) :
    decodeTypeIndicator ((t.ordinal : ℚ)) = .ok t := by
  cases t <;> norm_num [decodeTypeIndicator, TypeIndicator.ordinal]

theorem parseLdtHeader_eval (a b c d e f : String) (sym : Symmetry)
    (ti : TypeIndicator) (q1 q2 q3 q4 q5 q6 q7 : ℚ) (rest : List Tok) :
    parseLdtHeader (Tok.txt a :: Tok.txt b :: Tok.txt c :: Tok.txt d ::
      Tok.txt e :: Tok.txt f :: Tok.num ((sym.ordinal : ℚ)) ::
      Tok.num ((ti.ordinal : ℚ)) :: Tok.num q1 :: Tok.num q2 :: Tok.num q3 ::
      Tok.num q4 :: Tok.num q5 :: Tok.num q6 :: Tok.num q7 :: rest) =
      .ok (⟨a, b, c, d, e, f, sym, ti, q1, q2, q3, q4, q5, q6, q7⟩, rest) := by
  simp [parseLdtHeader, Bind.bind, Except.bind, takeTxt_cons, takeNum_cons,
    decodeSymmetry_ordinal, decodeTypeIndicator_ordinal]

theorem parseIesHeader_eval (a b c d e f : String) (sym : Symmetry)
    (ti : TypeIndicator) (q1 q2 q3 q4 q5 q6 q7 : ℚ) (rest : List Tok) :
    parseIesHeader (Tok.txt a :: Tok.txt b :: Tok.txt c :: Tok.txt d ::
      Tok.txt e :: Tok.txt f :: Tok.num ((ti.ordinal : ℚ)) ::
      Tok.num ((sym.ordinal : ℚ)) :: Tok.num q2 :: Tok.num q1 :: Tok.num q3 ::
      Tok.num q4 :: Tok.num q5 :: Tok.num q6 :: Tok.num q7 :: rest) =
      .ok (⟨a, b, c, d, e, f, sym, ti, q1, q2, q3, q4, q5, q6, q7⟩, rest) := by
  simp [parseIesHeader, Bind.bind, Except.bind, takeTxt_cons, takeNum_cons,
    decodeSymmetry_ordinal, decodeTypeIndicator_ordinal]

theorem takeLampSets_flatten (lss : List LampSet) :
    takeLampSets lss.length ((lss.map exportLampSet).flatten) = .ok (lss, []) := by
  have h := takeLampSets_append lss []
  simpa using h

theorem takeRows_eval_nil (rows : List (List ℚ)) (k n : Nat)
    (hn : rows.length = n) (h : ∀ row ∈ rows, row.length = k) :
    takeRows n k ((rows.map (fun row => row.map Tok.num)).flatten) =
      .ok (rows, []) := by
  have h2 := takeRows_eval rows k n [] hn h
  simpa using h2

theorem buildModel_ok {hd : LdtHeader} {nc ng : Nat} {cA gA : List ℚ}
    {tbl : List (List ℚ)} {lamps : List LampSet} {rest : List Tok}
    {m : LuminaireModel} (h : buildModel hd nc ng cA gA tbl lamps rest = .ok m) :
    m.num_c_planes = nc ∧ m.num_g_planes = ng ∧ m.c_angles = cA ∧
    m.g_angles = gA ∧ m.intensities = tbl ∧ m.lamp_sets = lamps ∧
    (∀ row ∈ tbl, ∀ v ∈ row, 0 ≤ v) ∧
    m.max_intensity = computeMaxIntensity tbl ∧
    m.total_luminous_flux = computeTotalFlux gA tbl ∧
    m.downward_flux_fraction = computeDFF gA tbl ∧
    m.light_output_ratio =
      computeLOR ((lamps.map LampSet.total_luminous_flux).sum)
        (computeTotalFlux gA tbl) := by
  unfold buildModel at h
  split at h
  · exact absurd h (by simp)
  split at h
  · exact absurd h (by simp)
  rename_i hneg
  simp only [Except.ok.injEq] at h
  subst h
  refine ⟨rfl, rfl, rfl, rfl, rfl, rfl, ?_, rfl, rfl, rfl, rfl⟩
  have hall := not_not.mp hneg
  simp only [List.all_eq_true, decide_eq_true_eq] at hall
  exact hall

theorem parse_ldt_wf {toks : List Tok} {m : LuminaireModel}
    (h : eulumdat_parse_ldt toks = .ok m) : wellFormed m := by
  unfold eulumdat_parse_ldt at h
  rcases h1 : parseLdtHeader toks with e | ⟨hd, r1⟩
  · simp [h1] at h
  simp only [h1] at h
  rcases h2 : takeNat r1 with e | ⟨nc, r2⟩
  · simp [h2] at h
  simp only [h2] at h
  rcases h3 : takeNat r2 with e | ⟨ng, r3⟩
  · simp [h3] at h
  simp only [h3] at h
  rcases h4 : takeNums nc r3 with e | ⟨cA, r4⟩
  · simp [h4] at h
  simp only [h4] at h
  rcases h5 : takeNums ng r4 with e | ⟨gA, r5⟩
  · simp [h5] at h
  simp only [h5] at h
  rcases h6 : takeRows nc ng r5 with e | ⟨tbl, r6⟩
  · simp [h6] at h
  simp only [h6] at h
  rcases h7 : takeNat r6 with e | ⟨nls, r7⟩
  · simp [h7] at h
  simp only [h7] at h
  rcases h8 : takeLampSets nls r7 with e | ⟨lamps, r8⟩
  · simp [h8] at h
  simp only [h8] at h
  obtain ⟨b1, b2, b3, b4, b5, b6, b7, b8, b9, b10, b11⟩ := buildModel_ok h
  have lc := takeNums_ok_len h4
  have lg := takeNums_ok_len h5
  obtain ⟨lt, lrow⟩ := takeRows_ok_shape h6
  refine ⟨?_, ?_, ?_, ?_, ?_, ?_, ?_, ?_, ?_⟩
  · rw [b1, b3, lc]
  · rw [b2, b4, lg]
  · rw [b5, b1, lt]
  · rw [b5, b2]
    exact lrow
  · rw [b5]
    exact b7
  · rw [b8, b5]
  · rw [b9, b4, b5]
  · rw [b10, b4, b5]
  · rw [b11, b6, b9]

theorem parse_ies_wf {toks : List Tok} {m : LuminaireModel}
    (h : eulumdat_parse_ies toks = .ok m) : wellFormed m := by
  unfold eulumdat_parse_ies at h
  rcases h1 : parseIesHeader toks with e | ⟨hd, r1⟩
  · simp [h1] at h
  simp only [h1] at h
  rcases h2 : takeNat r1 with e | ⟨nls, r2⟩
  · simp [h2] at h
  simp only [h2] at h
  rcases h3 : takeLampSets nls r2 with e | ⟨lamps, r3⟩
  · simp [h3] at h
  simp only [h3] at h
  rcases h4 : takeNat r3 with e | ⟨ng, r4⟩
  · simp [h4] at h
  simp only [h4] at h
  rcases h5 : takeNat r4 with e | ⟨nc, r5⟩
  · simp [h5] at h
  simp only [h5] at h
  rcases h6 : takeNums ng r5 with e | ⟨gA, r6⟩
  · simp [h6] at h
  simp only [h6] at h
  rcases h7 : takeNums nc r6 with e | ⟨cA, r7⟩
  · simp [h7] at h
  simp only [h7] at h
  rcases h8 : takeRows nc ng r7 with e | ⟨tbl, r8⟩
  · simp [h8] at h
  simp only [h8] at h
  obtain ⟨b1, b2, b3, b4, b5, b6, b7, b8, b9, b10, b11⟩ := buildModel_ok h
  have lc := takeNums_ok_len h7
  have lg := takeNums_ok_len h6
  obtain ⟨lt, lrow⟩ := takeRows_ok_shape h8
  refine ⟨?_, ?_, ?_, ?_, ?_, ?_, ?_, ?_, ?_⟩
  · rw [b1, b3, lc]
  · rw [b2, b4, lg]
  · rw [b5, b1, lt]
  · rw [b5, b2]
    exact lrow
  · rw [b5]
    exact b7
  · rw [b8, b5]
  · rw [b9, b4, b5]
  · rw [b10, b4, b5]
  · rw [b11, b6, b9]

theorem export_parse_ldt {m : LuminaireModel} (hwf : wellFormed m) :
    eulumdat_parse_ldt (eulumdat_export_ldt m) = .ok m := by
  obtain ⟨nm, idf, lnum, fn, du, mrn, sym, ti, len, wid, hei, lal, law, dc, dg,
    nc, ng, cA, gA, tbl, lamps, maxI, tf, dff, lor⟩ := m
  obtain ⟨w1, w2, w3, w4, w5, w6, w7, w8, w9⟩ := hwf
  simp only at w1 w2 w3 w4 w5 w6 w7 w8 w9
  subst w1 w2 w6 w7 w8 w9
  unfold eulumdat_export_ldt eulumdat_parse_ldt
  simp only [List.cons_append, List.nil_append, List.append_assoc]
  rw [parseLdtHeader_eval]
  simp only [takeNat_natCast, takeNums_append]
  rw [takeRows_eval tbl gA.length cA.length _ w3 w4]
  simp only [takeNat_natCast]
  rw [takeLampSets_flatten]
  simp [buildModel, List.all_eq_true, decide_eq_true_eq]
  exact w5

theorem export_parse_ies {m : LuminaireModel} (hwf : wellFormed m) :
    eulumdat_parse_ies (eulumdat_export_ies m) = .ok m := by
  obtain ⟨nm, idf, lnum, fn, du, mrn, sym, ti, len, wid, hei, lal, law, dc, dg,
    nc, ng, cA, gA, tbl, lamps, maxI, tf, dff, lor⟩ := m
  obtain ⟨w1, w2, w3, w4, w5, w6, w7, w8, w9⟩ := hwf
  simp only at w1 w2 w3 w4 w5 w6 w7 w8 w9
  subst w1 w2 w6 w7 w8 w9
  unfold eulumdat_export_ies eulumdat_parse_ies
  simp only [List.cons_append, List.nil_append, List.append_assoc]
  rw [parseIesHeader_eval]
  simp only [takeNat_natCast, takeLampSets_append, takeNums_append]
  rw [takeRows_eval_nil tbl gA.length cA.length w3 w4]
  simp [buildModel, List.all_eq_true, decide_eq_true_eq]
  exact w5

theorem getD_of_lt (l : List ℚ) (j : Nat) (h : j < l.length) (d : ℚ) :
    l.getD j d = l.get ⟨j, h⟩ := by
  rw [List.getD_eq_getElem?_getD, List.getElem?_eq_getElem h]
  rfl

theorem getD_of_ge (l : List ℚ) (j : Nat) (h : l.length ≤ j) (d : ℚ) :
    l.getD j d = d := by
  rw [List.getD_eq_getElem?_getD, List.getElem?_eq_none h]
  rfl

theorem interp1_left (x0 x1 v0 v1 : ℚ) : interp1 x0 x1 v0 v1 x0 = v0 := by
  unfold interp1
  split_ifs <;> simp

theorem lowerCount_le_length (angles : List ℚ) (x : ℚ) :
    lowerCount angles x ≤ angles.length :=
  List.length_filter_le _ _

theorem lowerCount_spec (l : List ℚ) (x : ℚ) (hl : l.Pairwise (· < ·)) :
    (∀ (i : Nat) (hi : i < l.length), i < lowerCount l x → l.get ⟨i, hi⟩ ≤ x) ∧
    (∀ (i : Nat) (hi : i < l.length), lowerCount l x ≤ i → x < l.get ⟨i, hi⟩) := by
  induction l with
  | nil =>
    exact ⟨fun i hi => absurd hi (by simp), fun i hi => absurd hi (by simp)⟩
  | cons a t ih =>
    obtain ⟨ha, ht⟩ := List.pairwise_cons.mp hl
    obtain ⟨ih1, ih2⟩ := ih ht
    by_cases hax : a ≤ x
    · have hk : lowerCount (a :: t) x = lowerCount t x + 1 := by
        simp [lowerCount, List.filter_cons, hax]
      constructor
      · intro i hi hik
        cases i with
        | zero => exact hax
        | succ j =>
          exact ih1 j (by simpa using hi) (by omega)
      · intro i hi hik
        cases i with
        | zero => omega
        | succ j =>
          exact ih2 j (by simpa using hi) (by omega)
    · have hk : lowerCount (a :: t) x = 0 := by
        have htn : ∀ b ∈ t, ¬ b ≤ x := fun b hb =>
          not_le.mpr (lt_trans (lt_of_not_le hax) (ha b hb))
        simp only [lowerCount, List.filter_cons, List.length_eq_zero]
        rw [if_neg (by simpa using hax)]
        rw [List.filter_eq_nil_iff]
        intro b hb
        simpa using htn b hb
      constructor
      · intro i hi hik
        omega
      · intro i hi _
        cases i with
        | zero => exact lt_of_not_le hax
        | succ j =>
          exact lt_trans (lt_of_not_le hax) (ha _ (List.get_mem t j (by simpa using hi)))

theorem lowerCount_get (l : List ℚ) (hl : l.Pairwise (· < ·)) (i : Nat)
    (hi : i < l.length) : lowerCount l (l.get ⟨i, hi⟩) = i + 1 := by
  obtain ⟨h1, h2⟩ := lowerCount_spec l (l.get ⟨i, hi⟩) hl
  by_contra hne
  rcases Nat.lt_or_ge (lowerCount l (l.get ⟨i, hi⟩)) (i + 1) with hlt | hge
  · exact lt_irrefl _ (h2 i hi (by omega))
  · have hk2 : i + 1 < lowerCount l (l.get ⟨i, hi⟩) := by omega
    have hi1 : i + 1 < l.length := lt_of_lt_of_le hk2 (lowerCount_le_length l _)
    have hle := h1 (i + 1) hi1 hk2
    have hlt2 : l.get ⟨i, hi⟩ < l.get ⟨i + 1, hi1⟩ := by
      rw [List.pairwise_iff_get] at hl
      exact hl ⟨i, hi⟩ ⟨i + 1, hi1⟩ (by simp)
    exact absurd hle (not_le.mpr hlt2)

theorem sampleAxisG_get (gA row : List ℚ) (hg : gA.Pairwise (· < ·))
    (j : Nat) (hj : j < gA.length) :
    sampleAxisG gA row (gA.get ⟨j, hj⟩) = row.getD j 0 := by
  unfold sampleAxisG axisBracket
  rw [lowerCount_get gA hg j hj]
  by_cases hn : gA.length ≤ j + 1
  · have hj1 : gA.length - 1 = j := by omega
    simp only [Nat.succ_ne_zero, if_false, hn, if_true, hj1]
    simp [interp1]
  · simp only [Nat.succ_ne_zero, if_false, hn, if_true, Nat.add_sub_cancel]
    rw [getD_of_lt gA j hj 0]
    exact interp1_left _ _ _ _

theorem sample_exact_aux (m : LuminaireModel)
    (hC : m.c_angles.Pairwise (· < ·)) (hG : m.g_angles.Pairwise (· < ·))
    (hfold : ∀ a ∈ m.c_angles, foldC m.symmetry a = a)
    (i j : Nat) (hi : i < m.c_angles.length) (hj : j < m.g_angles.length) :
    eulumdat_sample_intensity m (m.c_angles.get ⟨i, hi⟩) (m.g_angles.get ⟨j, hj⟩) =
      (m.intensities.getD i []).getD j 0 := by
  simp only [eulumdat_sample_intensity, axisBracket]
  rw [hfold _ (List.get_mem _ _ _), lowerCount_get m.c_angles hC i hi]
  by_cases hn : m.c_angles.length ≤ i + 1
  · have hi1 : m.c_angles.length - 1 = i := by omega
    simp only [Nat.succ_ne_zero, if_false, hn, if_true, hi1]
    rw [sampleAxisG_get _ _ hG j hj]
    simp [interp1]
  · simp only [Nat.succ_ne_zero, if_false, hn, if_true, Nat.add_sub_cancel]
    rw [sampleAxisG_get _ _ hG j hj, sampleAxisG_get _ _ hG j hj,
      getD_of_lt m.c_angles i hi 0]
    exact interp1_left _ _ _ _

theorem sample_foldC_congr (m : LuminaireModel) (c c' g : ℚ)
    (h : foldC m.symmetry c = foldC m.symmetry c') :
    eulumdat_sample_intensity m c g = eulumdat_sample_intensity m c' g := by
  unfold eulumdat_sample_intensity
  rw [h]

theorem foldC_bothPlanes_reflect (c : ℚ) :
    foldC .bothPlanes (360 - c) = foldC .bothPlanes c := by
  simp only [foldC]
  split_ifs <;> linarith

theorem foldC_planeC0C180_reflect (c : ℚ) :
    foldC .planeC0C180 (360 - c) = foldC .planeC0C180 c := by
  simp only [foldC]
  split_ifs <;> linarith

theorem interp1_bounds {x0 x1 v0 v1 x lo hi : ℚ}
    (hv0 : lo ≤ v0 ∧ v0 ≤ hi) (hv1 : lo ≤ v1 ∧ v1 ≤ hi)
    (hx : x1 = x0 ∨ (x0 < x1 ∧ x0 ≤ x ∧ x ≤ x1)) :
    lo ≤ interp1 x0 x1 v0 v1 x ∧ interp1 x0 x1 v0 v1 x ≤ hi := by
  unfold interp1
  rcases hx with heq | ⟨hlt, hxl, hxr⟩
  · rw [if_pos heq]
    exact hv0
  · rw [if_neg (ne_of_gt hlt)]
    rw [mul_div_assoc]
    have hd : 0 < x1 - x0 := by linarith
    have ht0 : 0 ≤ (x - x0) / (x1 - x0) := div_nonneg (by linarith) (le_of_lt hd)
    have ht1 : (x - x0) / (x1 - x0) ≤ 1 := by
      rw [div_le_one hd]
      linarith
    constructor
    · nlinarith [mul_nonneg (sub_nonneg.mpr hv0.1) (sub_nonneg.mpr ht1),
        mul_nonneg (sub_nonneg.mpr hv1.1) ht0]
    · nlinarith [mul_nonneg (sub_nonneg.mpr hv0.2) (sub_nonneg.mpr ht1),
        mul_nonneg (sub_nonneg.mpr hv1.2) ht0]

theorem le_foldl_max (l : List ℚ) (a : ℚ) : a ≤ l.foldl max a := by
  induction l generalizing a with
  | nil => simp
  | cons b t ih => exact le_trans (le_max_left a b) (ih (max a b))

theorem mem_le_foldl_max {v : ℚ} {l : List ℚ} (h : v ∈ l) (a : ℚ) :
    v ≤ l.foldl max a := by
  induction l generalizing a with
  | nil => cases h
  | cons b t ih =>
    rcases List.mem_cons.mp h with rfl | hm
    · exact le_trans (le_max_right a v) (le_foldl_max t (max a v))
    · exact ih hm (max a b)

theorem computeMaxIntensity_nonneg (tbl : List (List ℚ)) :
    0 ≤ computeMaxIntensity tbl :=
  le_foldl_max _ 0

theorem entry_le_computeMax {tbl : List (List ℚ)} {row : List ℚ} {v : ℚ}
    (hr : row ∈ tbl) (hv : v ∈ row) : v ≤ computeMaxIntensity tbl :=
  le_trans (mem_le_foldl_max hv 0)
    (mem_le_foldl_max (List.mem_map_of_mem _ hr) 0)

theorem getD_bounds {row : List ℚ} {M : ℚ} (hM : 0 ≤ M)
    (h : ∀ v ∈ row, 0 ≤ v ∧ v ≤ M) (j : Nat) :
    0 ≤ row.getD j 0 ∧ row.getD j 0 ≤ M := by
  by_cases hj : j < row.length
  · rw [getD_of_lt row j hj 0]
    exact h _ (List.get_mem _ _ _)
  · rw [getD_of_ge row j (le_of_not_lt hj) 0]
    exact ⟨le_refl 0, hM⟩

theorem axisBracket_cases (l : List ℚ) (x : ℚ) (hl : l.Pairwise (· < ·)) :
    (axisBracket l x).1 = (axisBracket l x).2 ∨
    ((axisBracket l x).1 < l.length ∧ (axisBracket l x).2 < l.length ∧
      l.getD (axisBracket l x).1 0 < l.getD (axisBracket l x).2 0 ∧
      l.getD (axisBracket l x).1 0 ≤ x ∧ x ≤ l.getD (axisBracket l x).2 0) := by
  simp only [axisBracket]
  by_cases hk0 : lowerCount l x = 0
  · left
    simp [hk0]
  by_cases hnk : l.length ≤ lowerCount l x
  · left
    simp [hk0, hnk]
  · right
    simp only [hk0, if_false, hnk, if_true]
    obtain ⟨h1, h2⟩ := lowerCount_spec l x hl
    have hk1 : 1 ≤ lowerCount l x := Nat.one_le_iff_ne_zero.mpr hk0
    have hkn : lowerCount l x < l.length := lt_of_not_le hnk
    have hk1n : lowerCount l x - 1 < l.length := by omega
    rw [getD_of_lt l _ hk1n 0, getD_of_lt l _ hkn 0]
    refine ⟨by omega, hkn, ?_, ?_, ?_⟩
    · rw [List.pairwise_iff_get] at hl
      exact hl ⟨_, hk1n⟩ ⟨_, hkn⟩ (by simp; omega)
    · exact h1 _ hk1n (by omega)
    · exact le_of_lt (h2 _ hkn (le_refl _))

theorem sampleAxisG_bounds (gA row : List ℚ) (g : ℚ) (M : ℚ) (hM : 0 ≤ M)
    (hg : gA.Pairwise (· < ·)) (h : ∀ v ∈ row, 0 ≤ v ∧ v ≤ M) :
    0 ≤ sampleAxisG gA row g ∧ sampleAxisG gA row g ≤ M := by
  simp only [sampleAxisG]
  rcases axisBracket_cases gA g hg with heq | hc
  · exact interp1_bounds (getD_bounds hM h _) (getD_bounds hM h _)
      (Or.inl (by rw [heq]))
  · exact interp1_bounds (getD_bounds hM h _) (getD_bounds hM h _)
      (Or.inr ⟨hc.2.2.1, hc.2.2.2.1, hc.2.2.2.2⟩)

theorem sample_intensity_bounds (m : LuminaireModel)
    (hC : m.c_angles.Pairwise (· < ·)) (hG : m.g_angles.Pairwise (· < ·))
    (hpos : ∀ row ∈ m.intensities, ∀ v ∈ row, 0 ≤ v) (c g : ℚ) :
    0 ≤ eulumdat_sample_intensity m c g ∧
      eulumdat_sample_intensity m c g ≤ computeMaxIntensity m.intensities := by
  have hM : 0 ≤ computeMaxIntensity m.intensities := computeMaxIntensity_nonneg _
  have hrow : ∀ i : Nat, ∀ v ∈ m.intensities.getD i [],
      0 ≤ v ∧ v ≤ computeMaxIntensity m.intensities := by
    intro i v hv
    by_cases hi : i < m.intensities.length
    · rw [List.getD_eq_getElem?_getD, List.getElem?_eq_getElem hi] at hv
      have hmem : m.intensities[i] ∈ m.intensities := List.getElem_mem hi
      exact ⟨hpos _ hmem v hv, entry_le_computeMax hmem hv⟩
    · rw [List.getD_eq_getElem?_getD,
        List.getElem?_eq_none (le_of_not_lt hi)] at hv
      cases hv
  simp only [eulumdat_sample_intensity]
  rcases axisBracket_cases m.c_angles (foldC m.symmetry c) hC with heq | hc
  · exact interp1_bounds
      (sampleAxisG_bounds m.g_angles _ g _ hM hG (hrow _))
      (sampleAxisG_bounds m.g_angles _ g _ hM hG (hrow _))
      (Or.inl (by rw [heq]))
  · exact interp1_bounds
      (sampleAxisG_bounds m.g_angles _ g _ hM hG (hrow _))
      (sampleAxisG_bounds m.g_angles _ g _ hM hG (hrow _))
      (Or.inr ⟨hc.2.2.1, hc.2.2.2.1, hc.2.2.2.2⟩)

theorem mem_filter_sev {l : List ValidationWarning} {s : Severity}
    {w : ValidationWarning}
    (h : w ∈ l.filter (fun w => w.severity = s)) : w.severity = s := by
  have h2 := List.of_mem_filter h
  simpa using h2

theorem filter_sev_sev (l : List ValidationWarning) (s t : Severity)
    (hst : s ≠ t) :
    (l.filter (fun w => w.severity = s)).filter (fun w => w.severity = t) =
      [] := by
  rw [List.filter_eq_nil_iff]
  intro w hw
  have hs := mem_filter_sev hw
  simp [hs, hst]

theorem filter_sev_self (l : List ValidationWarning) (s : Severity) :
    (l.filter (fun w => w.severity = s)).filter (fun w => w.severity = s) =
      l.filter (fun w => w.severity = s) := by
  apply List.filter_eq_self.mpr
  intro w hw
  simpa using mem_filter_sev hw

theorem validate_filter_groups (m : LuminaireModel) (s : Severity) :
    (eulumdat_validate m).filter (fun w => w.severity = s) =
      (rawChecks m).filter (fun w => w.severity = s) := by
  unfold eulumdat_validate
  rw [List.filter_append, List.filter_append]
  cases s with
  | info =>
    rw [filter_sev_sev _ .error .info (by decide),
      filter_sev_sev _ .warning .info (by decide), filter_sev_self _ .info]
    simp
  | warning =>
    rw [filter_sev_sev _ .error .warning (by decide),
      filter_sev_self _ .warning, filter_sev_sev _ .info .warning (by decide)]
    simp
  | error =>
    rw [filter_sev_self _ .error, filter_sev_sev _ .warning .error (by decide),
      filter_sev_sev _ .info .error (by decide)]
    simp

theorem validate_pairwise (m : LuminaireModel) :
    (eulumdat_validate m).Pairwise
      (fun a b => b.severity.rank ≤ a.severity.rank) := by
  unfold eulumdat_validate
  rw [List.pairwise_append]
  refine ⟨?_, ?_, ?_⟩
  · rw [List.pairwise_append]
    refine ⟨?_, ?_, ?_⟩
    · apply List.pairwise_of_forall_mem_list
      intro a ha b hb
      rw [mem_filter_sev ha, mem_filter_sev hb]
    · apply List.pairwise_of_forall_mem_list
      intro a ha b hb
      rw [mem_filter_sev ha, mem_filter_sev hb]
    · intro a ha b hb
      rw [mem_filter_sev ha, mem_filter_sev hb]
      decide
  · apply List.pairwise_of_forall_mem_list
    intro a ha b hb
    rw [mem_filter_sev ha, mem_filter_sev hb]
  · intro a ha b hb
    rcases List.mem_append.mp ha with hae | haw
    · rw [mem_filter_sev hae, mem_filter_sev hb]
      decide
    · rw [mem_filter_sev haw, mem_filter_sev hb]
      decide

/-- C1: for every model M produced by a successful `parse_ldt`, parsing the
output of `export_ldt(M)` succeeds and yields a model identical to M (hence
identical angle sequences, intensity table bit-for-bit, and derived scalars:
max intensity, total flux, downward flux fraction, light output ratio);
the same round-trip property holds for `parse_ies`/`export_ies`. -/
theorem C1_roundtrip :
    (∀ toks m, eulumdat_parse_ldt toks = .ok m →
      eulumdat_parse_ldt (eulumdat_export_ldt m) = .ok m) ∧
    (∀ toks m, eulumdat_parse_ies toks = .ok m →
      eulumdat_parse_ies (eulumdat_export_ies m) = .ok m) :=
  ⟨fun _ _ h => export_parse_ldt (parse_ldt_wf h),
   fun _ _ h => export_parse_ies (parse_ies_wf h)⟩

theorem C1_roundtrip_witness :
    eulumdat_parse_ldt (eulumdat_export_ldt demoLdt) = .ok demoLdt ∧
    eulumdat_parse_ies (eulumdat_export_ies demoLdt) = .ok demoLdt :=
  ⟨C1_roundtrip.1 (eulumdat_export_ldt demoLdt) demoLdt (by rfl),
   C1_roundtrip.2 (eulumdat_export_ies demoLdt) demoLdt (by rfl)⟩

/-- C2: for every input, parsing returns a discriminated result — a complete
model with no error, or a diagnostic `ParseError` with no model, never both;
in the binding a failed `parseLdt`/`parseIes` throws the parser's diagnostic
and returns no value, and a successful one returns `true`. -/
theorem C2_parse_discriminated (s : NapiState) (toks : List Tok) :
    ((∃ m, eulumdat_parse_ldt toks = .ok m) ∨
      (∃ e, eulumdat_parse_ldt toks = .error e)) ∧
    ((∃ m, eulumdat_parse_ies toks = .ok m) ∨
      (∃ e, eulumdat_parse_ies toks = .error e)) ∧
    (∀ e, eulumdat_parse_ldt toks = .error e →
      ParseLdt s toks = (⟨Option.none⟩, .thrown e)) ∧
    (∀ m, eulumdat_parse_ldt toks = .ok m →
      ParseLdt s toks = (⟨some m⟩, .ok true)) ∧
    (∀ e, eulumdat_parse_ies toks = .error e →
      ParseIes s toks = (⟨Option.none⟩, .thrown e)) ∧
    (∀ m, eulumdat_parse_ies toks = .ok m →
      ParseIes s toks = (⟨some m⟩, .ok true)) := by
  refine ⟨?_, ?_, ?_, ?_, ?_, ?_⟩
  · rcases h : eulumdat_parse_ldt toks with e | mm
    · exact Or.inr ⟨e, rfl⟩
    · exact Or.inl ⟨mm, rfl⟩
  · rcases h : eulumdat_parse_ies toks with e | mm
    · exact Or.inr ⟨e, rfl⟩
    · exact Or.inl ⟨mm, rfl⟩
  · intro e h
    simp [ParseLdt, h]
  · intro mm h
    simp [ParseLdt, h]
  · intro e h
    simp [ParseIes, h]
  · intro mm h
    simp [ParseIes, h]

theorem C2_parse_discriminated_witness :
    ParseLdt ⟨some demoLdt⟩ [] = (⟨Option.none⟩, .thrown "expected text field") ∧
    ParseLdt ⟨Option.none⟩ (eulumdat_export_ldt demoLdt) =
      (⟨some demoLdt⟩, .ok true) :=
  ⟨(C2_parse_discriminated ⟨some demoLdt⟩ []).2.2.1 "expected text field" (by rfl),
   (C2_parse_discriminated ⟨Option.none⟩
      (eulumdat_export_ldt demoLdt)).2.2.2.1 demoLdt (by rfl)⟩

/-- C3: every per-model binding operation (getInfo, polarSvg, cartesianSvg,
butterflySvg, heatmapSvg, exportLdt, exportIes, validate, sampleIntensity)
called while no model is loaded throws the distinct "No file loaded" failure
and returns no value, never a silent default. -/
theorem C3_no_file_loaded (w h tilt c g : ℚ) (mc : Nat) (th : Int) :
    GetInfo ⟨Option.none⟩ = .thrown "No file loaded" ∧
    PolarSvg ⟨Option.none⟩ w h th = .thrown "No file loaded" ∧
    CartesianSvg ⟨Option.none⟩ w h mc th = .thrown "No file loaded" ∧
    ButterflySvg ⟨Option.none⟩ w h tilt th = .thrown "No file loaded" ∧
    HeatmapSvg ⟨Option.none⟩ w h th = .thrown "No file loaded" ∧
    ExportLdt ⟨Option.none⟩ = .thrown "No file loaded" ∧
    ExportIes ⟨Option.none⟩ = .thrown "No file loaded" ∧
    Validate ⟨Option.none⟩ = .thrown "No file loaded" ∧
    SampleIntensity ⟨Option.none⟩ c g = .thrown "No file loaded" :=
  ⟨rfl, rfl, rfl, rfl, rfl, rfl, rfl, rfl, rfl⟩

/-- C4: for every stored grid point (C-angle at index i, G-angle at index j)
of a model with sorted angle sequences whose stored C angles are fixed by
symmetry folding, sampling at that grid point returns exactly the stored
intensity table entry at (i, j). -/
theorem C4_sample_exact (m : LuminaireModel)
    (hC : m.c_angles.Pairwise (· < ·)) (hG : m.g_angles.Pairwise (· < ·))
    (hfold : ∀ a ∈ m.c_angles, foldC m.symmetry a = a)
    (i j : Nat) (hi : i < m.c_angles.length) (hj : j < m.g_angles.length) :
    eulumdat_sample_intensity m (m.c_angles.get ⟨i, hi⟩)
        (m.g_angles.get ⟨j, hj⟩) =
      (m.intensities.getD i []).getD j 0 :=
  sample_exact_aux m hC hG hfold i j hi hj

theorem C4_sample_exact_witness :
    eulumdat_sample_intensity demoLdt 90 45 =
      (demoLdt.intensities.getD 1 []).getD 1 0 :=
  C4_sample_exact demoLdt (by decide) (by decide) (by decide) 1 1
    (by decide) (by decide)

/-- C5: for a BothPlanes model and every c in [0,360), sampling respects the
quadrant reflection `sample(m, c, g) = sample(m, 360−c, g)`; the sampler
folds the query C angle into the stored range before interpolating, so the
same reflection holds for PlaneC0C180 (c > 180 folded to 360−c). -/
theorem C5_symmetry_folding (m : LuminaireModel) (c g : ℚ)
    (_h0 : 0 ≤ c) (_h1 : c < 360) :
    (m.symmetry = .bothPlanes →
      eulumdat_sample_intensity m c g =
        eulumdat_sample_intensity m (360 - c) g) ∧
    (m.symmetry = .planeC0C180 →
      eulumdat_sample_intensity m c g =
        eulumdat_sample_intensity m (360 - c) g) := by
  constructor
  · intro hs
    exact sample_foldC_congr m c (360 - c) g
      (by rw [hs]; exact (foldC_bothPlanes_reflect c).symm)
  · intro hs
    exact sample_foldC_congr m c (360 - c) g
      (by rw [hs]; exact (foldC_planeC0C180_reflect c).symm)

theorem C5_symmetry_folding_witness :
    demoBoth.symmetry = Symmetry.bothPlanes ∧
    eulumdat_sample_intensity demoBoth 30 45 =
      eulumdat_sample_intensity demoBoth (360 - 30) 45 :=
  ⟨rfl, (C5_symmetry_folding demoBoth 30 45 (by norm_num) (by norm_num)).1 rfl⟩

/-- C6: for every model with sorted angles, non-negative intensities and a
correctly cached maximum, the normalized sample lies in [0,1]; it equals the
sampled intensity divided by the cached maximum, and equals 0 when that
maximum is 0. -/
theorem C6_sample_normalized (m : LuminaireModel)
    (hC : m.c_angles.Pairwise (· < ·)) (hG : m.g_angles.Pairwise (· < ·))
    (hpos : ∀ row ∈ m.intensities, ∀ v ∈ row, 0 ≤ v)
    (hmax : m.max_intensity = computeMaxIntensity m.intensities)
    (c g : ℚ) :
    (0 ≤ eulumdat_sample_intensity_normalized m c g ∧
      eulumdat_sample_intensity_normalized m c g ≤ 1) ∧
    (m.max_intensity = 0 → eulumdat_sample_intensity_normalized m c g = 0) ∧
    (m.max_intensity ≠ 0 → eulumdat_sample_intensity_normalized m c g =
      eulumdat_sample_intensity m c g / m.max_intensity) := by
  have hb := sample_intensity_bounds m hC hG hpos c g
  unfold eulumdat_sample_intensity_normalized
  by_cases h0 : m.max_intensity = 0
  · simp [h0]
  · rw [if_neg h0]
    have hM0 : 0 ≤ m.max_intensity := by
      rw [hmax]
      exact computeMaxIntensity_nonneg m.intensities
    have hMpos : 0 < m.max_intensity := lt_of_le_of_ne hM0 (Ne.symm h0)
    refine ⟨⟨div_nonneg hb.1 hM0, ?_⟩, fun hh => absurd hh h0, fun _ => rfl⟩
    rw [div_le_one hMpos, hmax]
    exact hb.2

theorem C6_sample_normalized_witness :
    0 ≤ eulumdat_sample_intensity_normalized demoLdt 45 30 ∧
    eulumdat_sample_intensity_normalized demoLdt 45 30 ≤ 1 :=
  (C6_sample_normalized demoLdt (by decide) (by decide) (by decide) rfl
    45 30).1

/-- C7: validate never fails, is deterministic (identical output on identical
input), and its output is ordered: all Error entries precede all Warning
entries, which precede all Info entries, each severity group preserving the
check-definition order of `rawChecks`. -/
theorem C7_validate_ordered (m : LuminaireModel) :
    eulumdat_validate m = eulumdat_validate m ∧
    (eulumdat_validate m).Pairwise
      (fun a b => b.severity.rank ≤ a.severity.rank) ∧
    (∀ s : Severity,
      (eulumdat_validate m).filter (fun w => w.severity = s) =
        (rawChecks m).filter (fun w => w.severity = s)) ∧
    (∀ s : Severity,
      List.Sublist ((eulumdat_validate m).filter (fun w => w.severity = s))
        (rawChecks m)) :=
  ⟨rfl, validate_pairwise m, validate_filter_groups m, fun s => by
    rw [validate_filter_groups m s]
    exact List.filter_sublist _⟩

/-- C8: an LDT file declaring `num_c_planes = 5` but supplying only 4 C-angle
values fails parsing with a structural error and yields no model; every
successfully parsed model has `num_c_planes`/`num_g_planes` equal to its
angle-sequence lengths and its intensity-table dimensions. -/
theorem C8_count_consistency :
    (∃ e, eulumdat_parse_ldt badCountLdt = .error e) ∧
    (∀ toks m, eulumdat_parse_ldt toks = .ok m →
      m.num_c_planes = m.c_angles.length ∧
      m.num_g_planes = m.g_angles.length ∧
      m.intensities.length = m.num_c_planes ∧
      ∀ row ∈ m.intensities, row.length = m.num_g_planes) := by
  constructor
  · exact ⟨"expected numeric field", by rfl⟩
  · intro toks m h
    obtain ⟨w1, w2, w3, w4, _⟩ := parse_ldt_wf h
    exact ⟨w1, w2, w3, w4⟩

theorem C8_count_consistency_witness :
    demoLdt.num_c_planes = demoLdt.c_angles.length ∧
    demoLdt.num_g_planes = demoLdt.g_angles.length ∧
    demoLdt.intensities.length = demoLdt.num_c_planes ∧
    ∀ row ∈ demoLdt.intensities, row.length = demoLdt.num_g_planes :=
  C8_count_consistency.2 (eulumdat_export_ldt demoLdt) demoLdt (by rfl)

/-- C9: the name helpers are pure total lookups: every in-range ordinal
returns its display text — symmetry 4 returns the BothPlanes text — and
every out-of-range ordinal (such as 99) returns the designated "Unknown"
string, never an error. -/
theorem C9_name_lookups :
    (∀ s : Symmetry, eulumdat_symmetry_name s.ordinal = symmetryDisplay s) ∧
    eulumdat_symmetry_name 4 = symmetryDisplay .bothPlanes ∧
    (∀ n : Int, (n < 0 ∨ 4 < n) → eulumdat_symmetry_name n = "Unknown") ∧
    (∀ t : TypeIndicator,
      eulumdat_type_indicator_name t.ordinal = typeIndicatorDisplay t) ∧
    (∀ n : Int, (n < 0 ∨ 2 < n) →
      eulumdat_type_indicator_name n = "Unknown") := by
  refine ⟨?_, by decide, ?_, ?_, ?_⟩
  · intro s
    cases s <;> decide
  · intro n hn
    unfold eulumdat_symmetry_name
    rcases hn with hn | hn <;>
      (split_ifs <;> first | rfl | (exfalso; omega))
  · intro t
    cases t <;> decide
  · intro n hn
    unfold eulumdat_type_indicator_name
    rcases hn with hn | hn <;>
      (split_ifs <;> first | rfl | (exfalso; omega))

theorem C9_name_lookups_witness :
    eulumdat_symmetry_name 99 = "Unknown" ∧
    eulumdat_type_indicator_name 99 = "Unknown" :=
  ⟨C9_name_lookups.2.2.1 99 (by norm_num),
   C9_name_lookups.2.2.2.2 99 (by norm_num)⟩

/-- C10: parseLdt/parseIes free the previously loaded model before parsing,
so a failed parse throws and leaves the binding with no loaded model —
`isLoaded()` returns false afterwards regardless of the prior state. -/
theorem C10_failed_parse_clears (s : NapiState) (toks : List Tok) (e : String) :
    (eulumdat_parse_ldt toks = .error e →
      ParseLdt s toks = (⟨Option.none⟩, .thrown e) ∧
      IsLoaded (ParseLdt s toks).1 = false) ∧
    (eulumdat_parse_ies toks = .error e →
      ParseIes s toks = (⟨Option.none⟩, .thrown e) ∧
      IsLoaded (ParseIes s toks).1 = false) := by
  constructor
  · intro h
    refine ⟨by simp [ParseLdt, h], ?_⟩
    simp [ParseLdt, h, IsLoaded]
  · intro h
    refine ⟨by simp [ParseIes, h], ?_⟩
    simp [ParseIes, h, IsLoaded]

theorem C10_failed_parse_clears_witness :
    ParseIes ⟨some demoLdt⟩ [] = (⟨Option.none⟩, .thrown "expected text field") ∧
    IsLoaded (ParseIes ⟨some demoLdt⟩ []).1 = false :=
  (C10_failed_parse_clears ⟨some demoLdt⟩ [] "expected text field").2 (by rfl)

end Eulumdat
